import Mathlib

/-!
Verification of `Tools/tempo.py`: a script that acquires Jira session
cookies through a driven browser, persists them as JSON, and submits a
Tempo worklog over HTTP using the persisted cookies.

The Python module is shallowly embedded below.  External effects (the
browser, the HTTP client, the filesystem) are modelled as explicit
environment values; JSON serialisation (`json.dump`/`json.load`) is
modelled on JSON value trees, with unreadable and unparsable file states
represented explicitly.
-/

/-- Constant `MAX_RETRIES = 4` (tempo.py line 18). -/
def MAX_RETRIES : Nat := 4

/-- Constant `WAIT_TIME = 3` seconds (tempo.py line 19). -/
def WAIT_TIME : Nat := 3

namespace Config

/-- `Config.DEFAULT_USER` (tempo.py line 25). -/
def DEFAULT_USER : String := "jira_user_name"

/-- `Config.DEFAULT_PASSWORD` (tempo.py line 26). -/
def DEFAULT_PASSWORD : String := "jira_pwd"

end Config

/-- JSON values, as produced by `json.load` and consumed by `json.dump`.
Objects are field lists in insertion order. -/
inductive JValue where
  | null
  | bool (b : Bool)
  | num (n : Int)
  | str (s : String)
  | arr (elems : List JValue)
  | obj (fields : List (String × JValue))

/-- Python truthiness of a JSON-representable value: `None`, `False`, `0`,
`""`, `[]` and `{}` are falsy, everything else truthy. -/
def JValue.truthy : JValue → Bool
  | .null => false
  | .bool b => b
  | .num n => n ≠ 0
  | .str s => !s.isEmpty
  | .arr elems => !elems.isEmpty
  | .obj fields => !fields.isEmpty

/-- `d.get(key)` on a Python dict represented as a field list; for
duplicate keys the last occurrence wins, as in a parsed JSON object. -/
def dictGet (fields : List (String × JValue)) (key : String) : Option JValue :=
  fields.foldl (fun acc p => if p.1 = key then some p.2 else acc) none

/-- Keys of a JSON object (empty for non-objects). -/
def JValue.keys : JValue → List String
  | .obj fields => fields.map Prod.fst
  | _ => []

/-- Lookup of a key in a JSON object (none for non-objects). -/
def JValue.lookup : JValue → String → Option JValue
  | .obj fields, key => dictGet fields key
  | _, _ => none

/-- Kinds of Python exceptions the embedded code can raise. -/
inductive PyError where
  /-- `IOError` from `open`/read/write. -/
  | ioError
  /-- `json.JSONDecodeError` from `json.load` (a `ValueError`, not an `IOError`). -/
  | jsonDecodeError
  /-- `TypeError`, e.g. `CookieSet(**d)` with wrong keyword arguments or `**` on a non-mapping. -/
  | typeError
  /-- `AttributeError`, e.g. `None.name` or `.get` on a non-dict. -/
  | attributeError
  /-- `ValueError(msg)` raised explicitly. -/
  | valueError (msg : String)
  /-- `selenium.common.exceptions.WebDriverException` (or any browser-layer failure). -/
  | webDriverError
deriving Repr, DecidableEq

/-- The `CookieSet` dataclass (tempo.py lines 38-41).  Python fields are
dynamically typed, so `name` and `value` hold arbitrary JSON-representable
values; the program itself only ever stores strings in them. -/
structure CookieSet where
  name : JValue
  value : JValue

/-- The `CredentialSettings` dataclass (tempo.py lines 49-54), with its
field defaults from `Config`. -/
structure CredentialSettings where
  user : JValue := .str Config.DEFAULT_USER
  pwd : JValue := .str Config.DEFAULT_PASSWORD
  JSESSIONID : Option CookieSet := none
  AtlassianXsrfToken : Option CookieSet := none

/-- `CookieSetEncoder.default` (tempo.py lines 43-47): a `CookieSet`
serialises as the object `{"name": ..., "value": ...}`. -/
def CookieSet.encode (c : CookieSet) : JValue :=
  .obj [("name", c.name), ("value", c.value)]

/-- How an optional cookie field of the dataclass serialises: `None`
becomes JSON `null`, a `CookieSet` goes through `CookieSetEncoder`. -/
def encodeOptCookie : Option CookieSet → JValue
  | none => .null
  | some c => c.encode

/-- `json.dump(self.credential_settings.__dict__, f, cls=CookieSetEncoder)`
(tempo.py line 92): the dataclass `__dict__` lists all four fields in
declaration order, whether or not the cookies were captured. -/
def CredentialSettings.dump (s : CredentialSettings) : JValue :=
  .obj [("user", s.user), ("pwd", s.pwd),
        ("JSESSIONID", encodeOptCookie s.JSESSIONID),
        ("AtlassianXsrfToken", encodeOptCookie s.AtlassianXsrfToken)]

/-- `CookieSet(**cookie_data)`: `cookie_data` must be a mapping whose keys
are exactly `name` and `value`, otherwise the call raises `TypeError`
(missing or unexpected keyword argument, or `**` applied to a non-mapping). -/
def CookieSet.construct : JValue → Except PyError CookieSet
  | .obj fields =>
      if fields.all (fun p => p.1 = "name" || p.1 = "value") then
        match dictGet fields "name", dictGet fields "value" with
        | some n, some v => .ok ⟨n, v⟩
        | _, _ => .error .typeError
      else .error .typeError
  | _ => .error .typeError

/-- `CredentialSettings.from_dict` (tempo.py lines 56-66) applied to the
result of `json.load`.  A non-dict value has no `.get`, raising
`AttributeError`.  A cookie entry is used only when truthy (the walrus
`if cookie_data := data.get(...)`), and is then passed to
`CookieSet(**cookie_data)`. -/
def CredentialSettings.from_dict (v : JValue) : Except PyError CredentialSettings :=
  match v with
  | .obj data =>
      let user := (dictGet data "user").getD (.str Config.DEFAULT_USER)
      let pwd := (dictGet data "pwd").getD (.str Config.DEFAULT_PASSWORD)
      let jsidE : Except PyError (Option CookieSet) :=
        match dictGet data "JSESSIONID" with
        | some cookieData =>
            if cookieData.truthy then (CookieSet.construct cookieData).map some
            else .ok none
        | none => .ok none
      match jsidE with
      | .error e => .error e
      | .ok jsid =>
          let xsrfE : Except PyError (Option CookieSet) :=
            match dictGet data "AtlassianXsrfToken" with
            | some tokenData =>
                if tokenData.truthy then (CookieSet.construct tokenData).map some
                else .ok none
            | none => .ok none
          match xsrfE with
          | .error e => .error e
          | .ok xsrf => .ok ⟨user, pwd, jsid, xsrf⟩
  | _ => .error .attributeError

/-- The shape `CookieSet(**cookie_data)` accepts without raising: a
mapping whose keys are exactly `name` and `value`. -/
def cookieShapeOk : JValue → Bool
  | .obj fields =>
      fields.all (fun p => p.1 = "name" || p.1 = "value")
        && (dictGet fields "name").isSome && (dictGet fields "value").isSome
  | _ => false

/-- A raw browser cookie as returned by `driver.get_cookies()`: a dict
with string `name` and `value` entries (other entries such as `domain`
are never read by the code). -/
structure RawCookie where
  name : String
  value : String
deriving Repr, DecidableEq

/-- Python's `str.lower()`: lowercase each character.  Defined on the
character list so that closed instances evaluate inside the kernel. -/
def pyLower (s : String) : String := ⟨s.data.map Char.toLower⟩

/-- The cookie names recognised as the session identifier
(tempo.py line 85, after `.lower()`). -/
def isSessionCookie (c : RawCookie) : Bool :=
  pyLower c.name = "jsessionid"

/-- The cookie names recognised as the anti-forgery token
(tempo.py line 87, after `.lower()`). -/
def isXsrfCookie (c : RawCookie) : Bool :=
  pyLower c.name = "atl.xsrf.token" || pyLower c.name = "atlassian.xsrf.token"

/-- The scanning loop of `CookieService._save_cookies` (tempo.py lines
83-88): each cookie whose lowercased name matches updates the
corresponding field of the store, preserving the original name and value;
other cookies are skipped. -/
def saveCookieStep (s : CredentialSettings) (c : RawCookie) : CredentialSettings :=
  let name := pyLower c.name
  if name = "jsessionid" then
    { s with JSESSIONID := some ⟨.str c.name, .str c.value⟩ }
  else if name = "atl.xsrf.token" || name = "atlassian.xsrf.token" then
    { s with AtlassianXsrfToken := some ⟨.str c.name, .str c.value⟩ }
  else s

/-- The whole scanning loop: a left fold of `saveCookieStep` over the raw
cookie list, in list order. -/
def saveCookiesUpdate (settings : CredentialSettings) (cookies : List RawCookie) :
    CredentialSettings :=
  cookies.foldl saveCookieStep settings

/-- State of the credential file `./CredentialSettings.json` as the
submission path sees it: unreadable (`open`/read raises `IOError`),
readable but not valid JSON (`json.load` raises `JSONDecodeError`), or
holding a parsed JSON value. -/
inductive FileState where
  | unreadable
  | invalid
  | json (v : JValue)

/-- Outcome of the HTTP POST as seen through aiohttp: a response with a
status code, or a network-layer `aiohttp.ClientError`. -/
inductive HttpOutcome where
  | status (code : Nat)
  | clientError
deriving Repr, DecidableEq

/-- `CookieService.post_tempo_worklog` (tempo.py lines 156-190).  The
first `try` catches only `IOError` and returns `False`; `json.load` or
`from_dict` failures propagate.  The cookie dict is built by reading
`.name`/`.value` on both stored cookies (lines 170-173): a missing cookie
is `None` and raises `AttributeError`.  The POST itself maps status 200 to
`True`, any other status to `False`, and `aiohttp.ClientError` to `False`.
The worklog payload `tempo_data` is sent as the request body and does not
influence control flow. -/
def post_tempo_worklog (file : FileState) (_tempoData : JValue) (http : HttpOutcome) :
    Except PyError Bool :=
  match file with
  | .unreadable => .ok false
  | .invalid => .error .jsonDecodeError
  | .json v =>
      match CredentialSettings.from_dict v with
      | .error e => .error e
      | .ok savedSettings =>
          match savedSettings.AtlassianXsrfToken, savedSettings.JSESSIONID with
          | some _, some _ =>
              match http with
              | .status code => if code = 200 then .ok true else .ok false
              | .clientError => .ok false
          | _, _ => .error .attributeError

/-- Outcome of one iteration of the click-retry loop, as the browser
environment determines it: the driver call raises `WebDriverException`;
or the element is found but `is_displayed()` is `False`; or the element
is found, displayed, and the click succeeds. -/
inductive AttemptOutcome where
  | webDriverError
  | notDisplayed
  | displayed
deriving Repr, DecidableEq

/-- How `_click_element_with_retry` ends: the element was clicked; the
final attempt's exception was re-raised; or the `for` loop ran out of
iterations without clicking and the function returned normally. -/
inductive ClickResult where
  | clicked
  | raised
  | fellThrough
deriving Repr, DecidableEq

/-- Observable trace of `_click_element_with_retry`: how many loop
iterations ran, how many `time.sleep(WAIT_TIME)` calls happened
(each sleeping `WAIT_TIME` = 3 seconds), and how the call ended. -/
structure ClickTrace where
  attempts : Nat
  sleeps : Nat
  result : ClickResult
deriving Repr, DecidableEq

/-- One iteration of the loop body of `_click_element_with_retry`
(tempo.py lines 112-122) with loop variable `attempt`, given the
per-attempt outcomes `env`; `fuel` counts the iterations
`range(MAX_RETRIES)` still has.  On an exception the code re-raises only
when `attempt == MAX_RETRIES - 1` and otherwise sleeps; when the element
is not displayed it neither sleeps nor raises, and the loop simply
continues. -/
def clickAux (env : Nat → AttemptOutcome) : Nat → Nat → Nat → ClickTrace
  | 0, attempt, sleeps => ⟨attempt, sleeps, .fellThrough⟩
  | fuel + 1, attempt, sleeps =>
      match env attempt with
      | .displayed => ⟨attempt + 1, sleeps, .clicked⟩
      | .webDriverError =>
          if attempt = MAX_RETRIES - 1 then ⟨attempt + 1, sleeps, .raised⟩
          else clickAux env fuel (attempt + 1) (sleeps + 1)
      | .notDisplayed => clickAux env fuel (attempt + 1) sleeps

/-- `CookieService._click_element_with_retry` (tempo.py lines 111-122):
`for attempt in range(MAX_RETRIES)` over the loop body above. -/
def click_element_with_retry (env : Nat → AttemptOutcome) : ClickTrace :=
  clickAux env MAX_RETRIES 0 0

/-- The environment a run of `get_jira_cookies` unfolds in: whether driver
creation, the two page navigations (`driver.get` plus the ready-state
wait) and the login-form fill succeed, the per-attempt outcomes of the two
click-retry calls, the browser's cookies, and whether the credential-file
write succeeds. -/
structure AcquireEnv where
  driverOk : Bool
  navOk : Bool
  click1 : Nat → AttemptOutcome
  formOk : Bool
  click2 : Nat → AttemptOutcome
  nav2Ok : Bool
  cookies : List RawCookie
  writeOk : Bool

/-- Observable outcome of `get_jira_cookies`: the returned value or the
propagated exception, the credential store and file afterwards, and
whether a driver was created and `driver.quit()` called. -/
structure AcquireResult where
  result : Except PyError Unit
  settings : CredentialSettings
  file : FileState
  driverCreated : Bool
  quitCalled : Bool

/-- The `try` body of `get_jira_cookies` after the driver exists
(tempo.py lines 129-147), returning the outcome together with the store
and credential file afterwards.  `_save_cookies` (lines 82-95) first runs
the scanning loop on the store and then attempts the file write, so on a
write `IOError` the store is already updated while the file is not. -/
def acquireBody (env : AcquireEnv) (settings : CredentialSettings) (file : FileState) :
    Except PyError Unit × CredentialSettings × FileState :=
  if !env.navOk then (.error .webDriverError, settings, file)
  else if (click_element_with_retry env.click1).result = .raised then
    (.error .webDriverError, settings, file)
  else if !env.formOk then (.error .webDriverError, settings, file)
  else if (click_element_with_retry env.click2).result = .raised then
    (.error .webDriverError, settings, file)
  else if !env.nav2Ok then (.error .webDriverError, settings, file)
  else if env.cookies.isEmpty then
    (.error (.valueError "No cookies obtained"), settings, file)
  else
    let s := saveCookiesUpdate settings env.cookies
    if env.writeOk then (.ok (), s, .json s.dump)
    else (.error .ioError, s, file)

/-- `CookieService.get_jira_cookies` (tempo.py lines 124-154).  `driver`
starts as `None`; if `_get_web_driver` raises, the `finally` block sees
`driver` still `None` and skips `quit`.  Once the driver exists, the
`except` clause only logs and re-raises, and the `finally` block calls
`driver.quit()` on every exit path. -/
def get_jira_cookies (env : AcquireEnv) (settings : CredentialSettings) (file : FileState) :
    AcquireResult :=
  if env.driverOk then
    let out := acquireBody env settings file
    ⟨out.1, out.2.1, out.2.2, true, true⟩
  else
    ⟨.error .webDriverError, settings, file, false, false⟩

/-! ### Helper lemmas about the cookie-scanning loop -/

theorem saveCookiesUpdate_nil (s : CredentialSettings) : saveCookiesUpdate s [] = s := rfl

theorem saveCookiesUpdate_cons (s : CredentialSettings) (c : RawCookie) (l : List RawCookie) :
    saveCookiesUpdate s (c :: l) = saveCookiesUpdate (saveCookieStep s c) l := rfl

theorem saveCookiesUpdate_append (s : CredentialSettings) (l1 l2 : List RawCookie) :
    saveCookiesUpdate s (l1 ++ l2) = saveCookiesUpdate (saveCookiesUpdate s l1) l2 := by
  simp [saveCookiesUpdate, List.foldl_append]

theorem saveCookieStep_user (s : CredentialSettings) (c : RawCookie) :
    (saveCookieStep s c).user = s.user := by
  simp only [saveCookieStep]
  split
  · rfl
  · split <;> rfl

theorem saveCookieStep_pwd (s : CredentialSettings) (c : RawCookie) :
    (saveCookieStep s c).pwd = s.pwd := by
  simp only [saveCookieStep]
  split
  · rfl
  · split <;> rfl

theorem saveCookiesUpdate_user (l : List RawCookie) :
    ∀ s : CredentialSettings, (saveCookiesUpdate s l).user = s.user := by
  induction l with
  | nil => intro s; rfl
  | cons c l ih => intro s; rw [saveCookiesUpdate_cons, ih, saveCookieStep_user]

theorem saveCookiesUpdate_pwd (l : List RawCookie) :
    ∀ s : CredentialSettings, (saveCookiesUpdate s l).pwd = s.pwd := by
  induction l with
  | nil => intro s; rfl
  | cons c l ih => intro s; rw [saveCookiesUpdate_cons, ih, saveCookieStep_pwd]

theorem saveCookieStep_JSESSIONID_of_match (s : CredentialSettings) (c : RawCookie)
    (h : isSessionCookie c = true) :
    (saveCookieStep s c).JSESSIONID = some ⟨.str c.name, .str c.value⟩ := by
  have h' : pyLower c.name = "jsessionid" := by simpa [isSessionCookie] using h
  simp [saveCookieStep, h']

theorem saveCookieStep_JSESSIONID_of_no_match (s : CredentialSettings) (c : RawCookie)
    (h : isSessionCookie c = false) :
    (saveCookieStep s c).JSESSIONID = s.JSESSIONID := by
  have h' : ¬ pyLower c.name = "jsessionid" := by simpa [isSessionCookie] using h
  simp only [saveCookieStep, if_neg h']
  split <;> rfl

theorem saveCookieStep_xsrf_of_match (s : CredentialSettings) (c : RawCookie)
    (h : isXsrfCookie c = true) :
    (saveCookieStep s c).AtlassianXsrfToken = some ⟨.str c.name, .str c.value⟩ := by
  have h' : pyLower c.name = "atl.xsrf.token" ∨ pyLower c.name = "atlassian.xsrf.token" := by
    simpa [isXsrfCookie] using h
  have hsess : ¬ pyLower c.name = "jsessionid" := by
    rcases h' with h' | h' <;> rw [h'] <;> decide
  simp only [saveCookieStep, if_neg hsess]
  rcases h' with h' | h' <;> simp [h']

theorem saveCookieStep_xsrf_of_no_match (s : CredentialSettings) (c : RawCookie)
    (h : isXsrfCookie c = false) :
    (saveCookieStep s c).AtlassianXsrfToken = s.AtlassianXsrfToken := by
  have h' : ¬ pyLower c.name = "atl.xsrf.token" ∧ ¬ pyLower c.name = "atlassian.xsrf.token" := by
    constructor <;> intro hc <;> simp [isXsrfCookie, hc] at h
  by_cases hs : pyLower c.name = "jsessionid" <;>
    simp [saveCookieStep, hs, h'.1, h'.2]

theorem saveCookiesUpdate_JSESSIONID_of_no_match (l : List RawCookie)
    (hl : ∀ c ∈ l, isSessionCookie c = false) :
    ∀ s : CredentialSettings, (saveCookiesUpdate s l).JSESSIONID = s.JSESSIONID := by
  induction l with
  | nil => intro s; rfl
  | cons c l ih =>
      intro s
      rw [saveCookiesUpdate_cons, ih (fun d hd => hl d (List.mem_cons_of_mem _ hd)),
        saveCookieStep_JSESSIONID_of_no_match _ _ (hl c (List.mem_cons_self _ _))]

theorem saveCookiesUpdate_xsrf_of_no_match (l : List RawCookie)
    (hl : ∀ c ∈ l, isXsrfCookie c = false) :
    ∀ s : CredentialSettings, (saveCookiesUpdate s l).AtlassianXsrfToken = s.AtlassianXsrfToken := by
  induction l with
  | nil => intro s; rfl
  | cons c l ih =>
      intro s
      rw [saveCookiesUpdate_cons, ih (fun d hd => hl d (List.mem_cons_of_mem _ hd)),
        saveCookieStep_xsrf_of_no_match _ _ (hl c (List.mem_cons_self _ _))]

theorem saveCookiesUpdate_JSESSIONID_of_single :
    ∀ (l : List RawCookie) (cs : RawCookie), l.filter isSessionCookie = [cs] →
      ∀ s : CredentialSettings,
        (saveCookiesUpdate s l).JSESSIONID = some ⟨.str cs.name, .str cs.value⟩ := by
  intro l
  induction l with
  | nil => intro cs hf; simp at hf
  | cons c l ih =>
      intro cs hf s
      rw [saveCookiesUpdate_cons]
      by_cases hc : isSessionCookie c
      · rw [List.filter_cons_of_pos hc] at hf
        have hcs : c = cs := (List.cons_eq_cons.mp hf).1
        have hnil : l.filter isSessionCookie = [] := (List.cons_eq_cons.mp hf).2
        have hnone : ∀ d ∈ l, isSessionCookie d = false := by
          intro d hd
          simpa using List.filter_eq_nil_iff.mp hnil d hd
        rw [saveCookiesUpdate_JSESSIONID_of_no_match l hnone]
        subst hcs
        exact saveCookieStep_JSESSIONID_of_match s c hc
      · rw [List.filter_cons_of_neg hc] at hf
        exact ih cs hf _

theorem saveCookiesUpdate_xsrf_of_single :
    ∀ (l : List RawCookie) (cx : RawCookie), l.filter isXsrfCookie = [cx] →
      ∀ s : CredentialSettings,
        (saveCookiesUpdate s l).AtlassianXsrfToken = some ⟨.str cx.name, .str cx.value⟩ := by
  intro l
  induction l with
  | nil => intro cx hf; simp at hf
  | cons c l ih =>
      intro cx hf s
      rw [saveCookiesUpdate_cons]
      by_cases hc : isXsrfCookie c
      · rw [List.filter_cons_of_pos hc] at hf
        have hcs : c = cx := (List.cons_eq_cons.mp hf).1
        have hnil : l.filter isXsrfCookie = [] := (List.cons_eq_cons.mp hf).2
        have hnone : ∀ d ∈ l, isXsrfCookie d = false := by
          intro d hd
          simpa using List.filter_eq_nil_iff.mp hnil d hd
        rw [saveCookiesUpdate_xsrf_of_no_match l hnone]
        subst hcs
        exact saveCookieStep_xsrf_of_match s c hc
      · rw [List.filter_cons_of_neg hc] at hf
        exact ih cx hf _

/-- C1: for a raw cookie list containing exactly one cookie whose name is
`JSESSIONID` up to case and exactly one whose name is `atl.xsrf.token` or
`ATLASSIAN.XSRF.TOKEN` up to case, the scanning loop of `_save_cookies`
sets the store's `JSESSIONID` field to the former and its
`AtlassianXsrfToken` field to the latter, preserving each cookie's
original name and value, and the other cookies leave the rest of the
store (its `user` and `pwd` fields) untouched. -/
theorem save_cookies_captures_unique_matches
    (s : CredentialSettings) (cookies : List RawCookie) (cs cx : RawCookie)
    (hs : cookies.filter isSessionCookie = [cs])
    (hx : cookies.filter isXsrfCookie = [cx]) :
    (saveCookiesUpdate s cookies).JSESSIONID = some ⟨.str cs.name, .str cs.value⟩ ∧
    (saveCookiesUpdate s cookies).AtlassianXsrfToken = some ⟨.str cx.name, .str cx.value⟩ ∧
    (saveCookiesUpdate s cookies).user = s.user ∧
    (saveCookiesUpdate s cookies).pwd = s.pwd :=
  ⟨saveCookiesUpdate_JSESSIONID_of_single cookies cs hs s,
   saveCookiesUpdate_xsrf_of_single cookies cx hx s,
   saveCookiesUpdate_user cookies s,
   saveCookiesUpdate_pwd cookies s⟩

/-- Witness for C1 at a concrete four-cookie list with unrelated cookies
around the two matches. -/
theorem save_cookies_captures_unique_matches_witness :
    (saveCookiesUpdate {}
        [⟨"foo", "1"⟩, ⟨"jsessionid", "abc"⟩, ⟨"ATLASSIAN.XSRF.TOKEN", "tok"⟩, ⟨"bar", "2"⟩]
      ).JSESSIONID = some ⟨.str "jsessionid", .str "abc"⟩ ∧
    (saveCookiesUpdate {}
        [⟨"foo", "1"⟩, ⟨"jsessionid", "abc"⟩, ⟨"ATLASSIAN.XSRF.TOKEN", "tok"⟩, ⟨"bar", "2"⟩]
      ).AtlassianXsrfToken = some ⟨.str "ATLASSIAN.XSRF.TOKEN", .str "tok"⟩ ∧
    (saveCookiesUpdate {}
        [⟨"foo", "1"⟩, ⟨"jsessionid", "abc"⟩, ⟨"ATLASSIAN.XSRF.TOKEN", "tok"⟩, ⟨"bar", "2"⟩]
      ).user = ({} : CredentialSettings).user ∧
    (saveCookiesUpdate {}
        [⟨"foo", "1"⟩, ⟨"jsessionid", "abc"⟩, ⟨"ATLASSIAN.XSRF.TOKEN", "tok"⟩, ⟨"bar", "2"⟩]
      ).pwd = ({} : CredentialSettings).pwd :=
  save_cookies_captures_unique_matches {}
    [⟨"foo", "1"⟩, ⟨"jsessionid", "abc"⟩, ⟨"ATLASSIAN.XSRF.TOKEN", "tok"⟩, ⟨"bar", "2"⟩]
    ⟨"jsessionid", "abc"⟩ ⟨"ATLASSIAN.XSRF.TOKEN", "tok"⟩ (by decide) (by decide)

/-- C10: when several raw cookies match the session-cookie name (or the
xsrf-token names) case-insensitively, the scanning loop keeps the last
match in list order for the corresponding field, overwriting earlier
matches. -/
theorem save_cookies_last_match_wins :
    (∀ (s : CredentialSettings) (pre : List RawCookie) (c : RawCookie) (post : List RawCookie),
        isSessionCookie c = true → (∀ d ∈ post, isSessionCookie d = false) →
        (saveCookiesUpdate s (pre ++ c :: post)).JSESSIONID =
          some ⟨.str c.name, .str c.value⟩) ∧
    (∀ (s : CredentialSettings) (pre : List RawCookie) (c : RawCookie) (post : List RawCookie),
        isXsrfCookie c = true → (∀ d ∈ post, isXsrfCookie d = false) →
        (saveCookiesUpdate s (pre ++ c :: post)).AtlassianXsrfToken =
          some ⟨.str c.name, .str c.value⟩) := by
  constructor
  · intro s pre c post hc hpost
    rw [saveCookiesUpdate_append, saveCookiesUpdate_cons,
      saveCookiesUpdate_JSESSIONID_of_no_match post hpost,
      saveCookieStep_JSESSIONID_of_match _ _ hc]
  · intro s pre c post hc hpost
    rw [saveCookiesUpdate_append, saveCookiesUpdate_cons,
      saveCookiesUpdate_xsrf_of_no_match post hpost,
      saveCookieStep_xsrf_of_match _ _ hc]

/-- Witness for C10: two session cookies and two xsrf cookies in one
list; the later ones win. -/
theorem save_cookies_last_match_wins_witness :
    (saveCookiesUpdate {}
        [⟨"jsessionid", "old"⟩, ⟨"JSESSIONID", "new"⟩]).JSESSIONID =
      some ⟨.str "JSESSIONID", .str "new"⟩ ∧
    (saveCookiesUpdate {}
        [⟨"atl.xsrf.token", "old"⟩, ⟨"ATLASSIAN.XSRF.TOKEN", "new"⟩]).AtlassianXsrfToken =
      some ⟨.str "ATLASSIAN.XSRF.TOKEN", .str "new"⟩ :=
  ⟨save_cookies_last_match_wins.1 {} [⟨"jsessionid", "old"⟩] ⟨"JSESSIONID", "new"⟩ []
      (by decide) (by intro d hd; cases hd),
   save_cookies_last_match_wins.2 {} [⟨"atl.xsrf.token", "old"⟩] ⟨"ATLASSIAN.XSRF.TOKEN", "new"⟩ []
      (by decide) (by intro d hd; cases hd)⟩

/-- C5: serialising any Credential Store value the way `_save_cookies`
writes it (`json.dump` of `__dict__` with `CookieSetEncoder`) and reading
it back the way `post_tempo_worklog` does (`CredentialSettings.from_dict`
on the parsed JSON) reproduces the identical `user`, `pwd`, and both
cookie name/value pairs. -/
theorem credential_settings_roundtrip (s : CredentialSettings) :
    CredentialSettings.from_dict s.dump = .ok s := by
  rcases s with ⟨u, p, j, x⟩
  rcases j with _ | ⟨jn, jv⟩ <;> rcases x with _ | ⟨xn, xv⟩ <;> rfl

/-- Counterexample to C8: the credential file written for a store whose
cookies were not captured still contains the keys `JSESSIONID` and
`AtlassianXsrfToken`, mapped to JSON `null` — the keys are not absent as
the claim states. -/
theorem dump_uncaptured_cookie_not_absent :
    (CredentialSettings.dump ⟨.str "u", .str "p", none, none⟩).keys =
      ["user", "pwd", "JSESSIONID", "AtlassianXsrfToken"] ∧
    (CredentialSettings.dump ⟨.str "u", .str "p", none, none⟩).lookup "JSESSIONID" =
      some JValue.null ∧
    (CredentialSettings.dump ⟨.str "u", .str "p", none, none⟩).lookup "AtlassianXsrfToken" =
      some JValue.null :=
  ⟨rfl, rfl, rfl⟩

/-- C8 as amended: the persisted credential file is a JSON object with
exactly the keys `user`, `pwd`, `JSESSIONID`, `AtlassianXsrfToken`; each
cookie key maps to an object with fields `name` and `value` when the
cookie was captured, and to JSON `null` (the key still present) when it
was not. -/
theorem dump_schema (s : CredentialSettings) :
    (s.dump).keys = ["user", "pwd", "JSESSIONID", "AtlassianXsrfToken"] ∧
    (s.dump).lookup "user" = some s.user ∧
    (s.dump).lookup "pwd" = some s.pwd ∧
    (s.dump).lookup "JSESSIONID" =
      some (match s.JSESSIONID with
            | some c => .obj [("name", c.name), ("value", c.value)]
            | none => .null) ∧
    (s.dump).lookup "AtlassianXsrfToken" =
      some (match s.AtlassianXsrfToken with
            | some c => .obj [("name", c.name), ("value", c.value)]
            | none => .null) := by
  rcases s with ⟨u, p, j, x⟩
  rcases j with _ | ⟨jn, jv⟩ <;> rcases x with _ | ⟨xn, xv⟩ <;>
    exact ⟨rfl, rfl, rfl, rfl, rfl⟩

/-- C2: submission converts its handled failures into `false` without an
exception escaping: an `IOError` reading the credential file yields
`ok false`; once the POST is issued (the file parsed and both cookies
present), a non-200 status yields `ok false`, a network-layer
`aiohttp.ClientError` yields `ok false`, and status 200 yields `ok true`. -/
theorem post_tempo_worklog_handled_failures :
    (∀ (payload : JValue) (http : HttpOutcome),
        post_tempo_worklog .unreadable payload http = .ok false) ∧
    (∀ (v : JValue) (s : CredentialSettings) (cj cx : CookieSet) (payload : JValue),
        CredentialSettings.from_dict v = .ok s →
        s.JSESSIONID = some cj → s.AtlassianXsrfToken = some cx →
        (∀ code : Nat, code ≠ 200 →
            post_tempo_worklog (.json v) payload (.status code) = .ok false) ∧
        post_tempo_worklog (.json v) payload .clientError = .ok false ∧
        post_tempo_worklog (.json v) payload (.status 200) = .ok true) := by
  constructor
  · intro payload http; rfl
  · intro v s cj cx payload hv hj hx
    refine ⟨fun code hcode => ?_, ?_, ?_⟩
    · simp [post_tempo_worklog, hv, hj, hx, hcode]
    · simp [post_tempo_worklog, hv, hj, hx]
    · simp [post_tempo_worklog, hv, hj, hx]

/-- Witness for C2 at a concrete credential file holding both cookies:
statuses 500 and 200 and a network error. -/
theorem post_tempo_worklog_handled_failures_witness :
    post_tempo_worklog
        (.json (CredentialSettings.dump
          ⟨.str "u", .str "p", some ⟨.str "JSESSIONID", .str "a"⟩,
           some ⟨.str "atl.xsrf.token", .str "b"⟩⟩))
        (.obj []) (.status 500) = .ok false ∧
    post_tempo_worklog
        (.json (CredentialSettings.dump
          ⟨.str "u", .str "p", some ⟨.str "JSESSIONID", .str "a"⟩,
           some ⟨.str "atl.xsrf.token", .str "b"⟩⟩))
        (.obj []) .clientError = .ok false ∧
    post_tempo_worklog
        (.json (CredentialSettings.dump
          ⟨.str "u", .str "p", some ⟨.str "JSESSIONID", .str "a"⟩,
           some ⟨.str "atl.xsrf.token", .str "b"⟩⟩))
        (.obj []) (.status 200) = .ok true := by
  have h := post_tempo_worklog_handled_failures.2
    (CredentialSettings.dump
      ⟨.str "u", .str "p", some ⟨.str "JSESSIONID", .str "a"⟩,
       some ⟨.str "atl.xsrf.token", .str "b"⟩⟩)
    ⟨.str "u", .str "p", some ⟨.str "JSESSIONID", .str "a"⟩,
     some ⟨.str "atl.xsrf.token", .str "b"⟩⟩
    ⟨.str "JSESSIONID", .str "a"⟩ ⟨.str "atl.xsrf.token", .str "b"⟩
    (.obj []) rfl rfl rfl
  exact ⟨h.1 500 (by decide), h.2.1, h.2.2⟩

/-- C3 evaluated on the code: for a credential file that deserialises
successfully but holds neither cookie, `post_tempo_worklog` raises
`AttributeError` (from `None.name` while building the cookie dict)
instead of returning `false` — the graceful failure the claim requires
does not happen. -/
theorem post_missing_cookie_raises :
    CredentialSettings.from_dict (.obj [("user", .str "u"), ("pwd", .str "p")]) =
      .ok ⟨.str "u", .str "p", none, none⟩ ∧
    post_tempo_worklog (.json (.obj [("user", .str "u"), ("pwd", .str "p")]))
      (.obj []) (.status 200) = .error .attributeError :=
  ⟨rfl, rfl⟩

/-- `CookieSet(**cookie_data)` raises `TypeError` whenever `cookie_data`
does not have exactly the keys `name` and `value`. -/
theorem construct_error_of_bad_shape (cv : JValue) (h : cookieShapeOk cv = false) :
    CookieSet.construct cv = .error .typeError := by
  cases cv with
  | obj fields =>
      simp only [CookieSet.construct]
      cases hall : fields.all (fun p => p.1 = "name" || p.1 = "value") with
      | false => simp [hall]
      | true =>
          simp only [cookieShapeOk, hall, Bool.true_and] at h
          cases hn : dictGet fields "name" <;> cases hv : dictGet fields "value" <;>
            simp [hall, hn, hv] at h ⊢
  | null => rfl
  | bool b => rfl
  | num n => rfl
  | str s => rfl
  | arr elems => rfl

/-- When `CookieSet.construct` fails, the raised exception is always
`TypeError`, whatever the malformed value looks like. -/
theorem construct_error_typeError (cv : JValue) (e : PyError)
    (h : CookieSet.construct cv = .error e) : e = .typeError := by
  cases cv with
  | obj fields =>
      simp only [CookieSet.construct] at h
      split at h
      · split at h
        · cases h
        · simp only [Except.error.injEq] at h
          exact h.symm
      · simp only [Except.error.injEq] at h
        exact h.symm
  | null => simpa [CookieSet.construct] using h.symm
  | bool b => simpa [CookieSet.construct] using h.symm
  | num n => simpa [CookieSet.construct] using h.symm
  | str s => simpa [CookieSet.construct] using h.symm
  | arr elems => simpa [CookieSet.construct] using h.symm

/-- C9 (implicit): only `IOError` on the credential file is converted to
`false`.  A file that is not valid JSON makes `json.load` raise
`JSONDecodeError` (not caught by `except IOError`); any `from_dict`
failure propagates out of `post_tempo_worklog` as a raised exception; and
a truthy entry under either cookie key (`JSESSIONID` or
`AtlassianXsrfToken`) without exactly the `name`/`value` shape makes
`from_dict` raise `TypeError`, whatever the other key holds. -/
theorem post_non_ioerror_failures_raise :
    (∀ (payload : JValue) (http : HttpOutcome),
        post_tempo_worklog .invalid payload http = .error .jsonDecodeError) ∧
    (∀ (v : JValue) (e : PyError) (payload : JValue) (http : HttpOutcome),
        CredentialSettings.from_dict v = .error e →
        post_tempo_worklog (.json v) payload http = .error e) ∧
    (∀ (data : List (String × JValue)) (cv : JValue),
        (dictGet data "JSESSIONID" = some cv ∨ dictGet data "AtlassianXsrfToken" = some cv) →
        cv.truthy = true → cookieShapeOk cv = false →
        CredentialSettings.from_dict (.obj data) = .error .typeError) := by
  refine ⟨fun payload http => rfl, fun v e payload http hv => ?_, ?_⟩
  · simp [post_tempo_worklog, hv]
  · rintro data cv (hget | hget) ht hshape
    · have hc := construct_error_of_bad_shape cv hshape
      simp [CredentialSettings.from_dict, hget, ht, hc, Except.map]
    · have hc := construct_error_of_bad_shape cv hshape
      cases hj : dictGet data "JSESSIONID" with
      | none => simp [CredentialSettings.from_dict, hj, hget, ht, hc, Except.map]
      | some cj =>
          by_cases hcj : cj.truthy
          · cases hjc : CookieSet.construct cj with
            | error e =>
                have he : e = .typeError := construct_error_typeError cj e hjc
                subst he
                simp [CredentialSettings.from_dict, hj, hcj, hjc, Except.map]
            | ok c =>
                simp [CredentialSettings.from_dict, hj, hcj, hjc, hget, ht, hc, Except.map]
          · simp [CredentialSettings.from_dict, hj, hcj, hget, ht, hc, Except.map]

/-- Witness for C9: a credential file with a well-formed `JSESSIONID`
entry but an `AtlassianXsrfToken` entry missing the `value` field makes
submission raise `TypeError`. -/
theorem post_non_ioerror_failures_raise_witness :
    post_tempo_worklog
      (.json (.obj
        [("JSESSIONID", .obj [("name", .str "n"), ("value", .str "v")]),
         ("AtlassianXsrfToken", .obj [("name", .str "x")])]))
      (.obj []) .clientError = .error .typeError :=
  post_non_ioerror_failures_raise.2.1 _ .typeError (.obj []) .clientError
    (post_non_ioerror_failures_raise.2.2
      [("JSESSIONID", .obj [("name", .str "n"), ("value", .str "v")]),
       ("AtlassianXsrfToken", .obj [("name", .str "x")])]
      (.obj [("name", .str "x")]) (Or.inr rfl) rfl rfl)

/-- Counterexample to C6: an element that is found on every attempt but
never displayed.  The loop runs all `MAX_RETRIES` iterations, but never
sleeps between attempts and never surfaces an error: the function falls
out of the loop and returns normally, contradicting the claimed fixed
delay between consecutive attempts and the claimed error on final
failure. -/
theorem click_retry_silent_when_never_displayed :
    click_element_with_retry (fun _ => .notDisplayed) =
      ⟨MAX_RETRIES, 0, .fellThrough⟩ ∧
    (click_element_with_retry (fun _ => .notDisplayed)).result ≠ ClickResult.raised ∧
    (click_element_with_retry (fun _ => .notDisplayed)).sleeps = 0 := by
  refine ⟨?_, ?_, ?_⟩ <;> decide

/-- C6 as amended: when every attempt fails with a driver exception, the
retry loop makes exactly `MAX_RETRIES` = 4 attempts with a
`time.sleep(WAIT_TIME)` (3-second) delay between consecutive attempts
(3 sleeps) and re-raises the exception of the final attempt; but when the
element is found and not displayed on every attempt, the loop makes its 4
attempts with no delay between them and returns normally, surfacing no
error. -/
theorem click_retry_amended (env : Nat → AttemptOutcome) :
    ((∀ i, i < MAX_RETRIES → env i = .webDriverError) →
        click_element_with_retry env = ⟨MAX_RETRIES, MAX_RETRIES - 1, .raised⟩) ∧
    ((∀ i, i < MAX_RETRIES → env i = .notDisplayed) →
        click_element_with_retry env = ⟨MAX_RETRIES, 0, .fellThrough⟩) := by
  constructor <;> intro h <;>
    have h0 := h 0 (by decide) <;> have h1 := h 1 (by decide) <;>
    have h2 := h 2 (by decide) <;> have h3 := h 3 (by decide) <;>
    simp [click_element_with_retry, clickAux, MAX_RETRIES, h0, h1, h2, h3]

/-- Witness for the amended C6: the always-raising environment makes 4
attempts, sleeps 3 times, and raises. -/
theorem click_retry_amended_witness :
    click_element_with_retry (fun _ => .webDriverError) =
      ⟨MAX_RETRIES, MAX_RETRIES - 1, .raised⟩ :=
  (click_retry_amended (fun _ => .webDriverError)).1 (fun _ _ => rfl)

/-- On any run of the `try` body with an empty cookie list, the file is
left unchanged and the body ends in an error. -/
theorem acquireBody_empty_cookies (env : AcquireEnv) (settings : CredentialSettings)
    (file : FileState) (h : env.cookies = []) :
    (acquireBody env settings file).2.2 = file ∧
    ∃ e, (acquireBody env settings file).1 = .error e := by
  unfold acquireBody
  rw [h]
  repeat' split
  all_goals first
    | exact ⟨rfl, ⟨_, rfl⟩⟩
    | simp_all

/-- When every step before `get_cookies` succeeds and the cookie list is
empty, the `try` body ends in exactly `ValueError("No cookies obtained")`. -/
theorem acquireBody_empty_cookies_value_error (env : AcquireEnv)
    (settings : CredentialSettings) (file : FileState)
    (h : env.cookies = []) (hnav : env.navOk = true) (hform : env.formOk = true)
    (hnav2 : env.nav2Ok = true)
    (hc1 : (click_element_with_retry env.click1).result ≠ .raised)
    (hc2 : (click_element_with_retry env.click2).result ≠ .raised) :
    (acquireBody env settings file).1 = .error (.valueError "No cookies obtained") := by
  unfold acquireBody
  simp [h, hnav, hform, hnav2, hc1, hc2]

/-- C4: whenever the browser returns zero cookies, acquisition ends in a
raised error and the credential file is not written (it is unchanged on
every error path); when all earlier steps succeeded, the error is
precisely `ValueError("No cookies obtained")`. -/
theorem acquire_no_cookies_fails (env : AcquireEnv) (settings : CredentialSettings)
    (file : FileState) (h : env.cookies = []) :
    (get_jira_cookies env settings file).file = file ∧
    (∃ e, (get_jira_cookies env settings file).result = .error e) ∧
    (env.driverOk = true → env.navOk = true → env.formOk = true → env.nav2Ok = true →
      (click_element_with_retry env.click1).result ≠ .raised →
      (click_element_with_retry env.click2).result ≠ .raised →
      (get_jira_cookies env settings file).result =
        .error (.valueError "No cookies obtained")) := by
  cases hd : env.driverOk with
  | false =>
      refine ⟨?_, ⟨.webDriverError, ?_⟩, ?_⟩
      · simp [get_jira_cookies, hd]
      · simp [get_jira_cookies, hd]
      · intro hd' _ _ _ _ _
        simp [hd] at hd'
  | true =>
      have hb := acquireBody_empty_cookies env settings file h
      refine ⟨?_, ?_, ?_⟩
      · simpa [get_jira_cookies, hd] using hb.1
      · obtain ⟨e, he⟩ := hb.2
        exact ⟨e, by simpa [get_jira_cookies, hd] using he⟩
      · intro _ hnav hform hnav2 hc1 hc2
        have hv := acquireBody_empty_cookies_value_error env settings file h
          hnav hform hnav2 hc1 hc2
        simpa [get_jira_cookies, hd] using hv

/-- Witness for C4: a concrete run where everything succeeds except that
the browser hands back an empty cookie list. -/
theorem acquire_no_cookies_fails_witness :
    (get_jira_cookies ⟨true, true, fun _ => .displayed, true, fun _ => .displayed, true, [], true⟩
        {} .unreadable).file = .unreadable ∧
    (∃ e, (get_jira_cookies
        ⟨true, true, fun _ => .displayed, true, fun _ => .displayed, true, [], true⟩
        {} .unreadable).result = .error e) ∧
    (get_jira_cookies ⟨true, true, fun _ => .displayed, true, fun _ => .displayed, true, [], true⟩
        {} .unreadable).result = .error (.valueError "No cookies obtained") := by
  have h := acquire_no_cookies_fails
    ⟨true, true, fun _ => .displayed, true, fun _ => .displayed, true, [], true⟩
    {} .unreadable rfl
  exact ⟨h.1, h.2.1, h.2.2 rfl rfl rfl rfl (by decide) (by decide)⟩

/-- C7: on every exit path of `get_jira_cookies` on which a browser
session was created, `driver.quit()` is invoked before the call returns
or propagates its exception. -/
theorem acquire_always_quits_driver (env : AcquireEnv) (settings : CredentialSettings)
    (file : FileState)
    (h : (get_jira_cookies env settings file).driverCreated = true) :
    (get_jira_cookies env settings file).quitCalled = true := by
  cases hd : env.driverOk with
  | false => simp [get_jira_cookies, hd] at h
  | true => simp [get_jira_cookies, hd]

/-- Witness for C7: a concrete failing run (the second navigation fails)
with a created driver still calls `quit`. -/
theorem acquire_always_quits_driver_witness :
    (get_jira_cookies ⟨true, true, fun _ => .displayed, true, fun _ => .displayed, false,
        [⟨"JSESSIONID", "a"⟩], true⟩ {} .unreadable).quitCalled = true :=
  acquire_always_quits_driver
    ⟨true, true, fun _ => .displayed, true, fun _ => .displayed, false, [⟨"JSESSIONID", "a"⟩], true⟩
    {} .unreadable rfl
